import Mathlib

/-!
Verification of the pulp distributor lifecycle manager, the task snapshot
model and the consumer register command.

The distributor lifecycle manager (pulp.server.managers.repo.distributor,
RepoDistributorManager) is exercised by test/unit/test_repo_distributor_manager.py
but its implementation is not part of the source excerpt, so it is modelled
from the specification (sections 3, 4.1, 6 and 7 of the design document):
plugins are external collaborators given as records of functions, the
association store is a list of records keyed by (repo_id, id), and every
operation returns its result, the successor state and the ordered list of
plugin hook invocations it performed.
-/

namespace Pulp

/-- A configuration mapping (opaque to the manager; modelled as an
association list of strings). -/
abbrev Config := List (String × String)

/-- The call configuration handed to plugin hooks: the merge of the plugin
default configuration with the caller supplied configuration. -/
structure CallConfiguration where
  plugin_config : Config
  repo_plugin_config : Config
deriving DecidableEq, Repr

/-- Outcome of the validate_config plugin hook: it returns a boolean or may
raise. -/
inductive ValidateResult
  | valid
  | invalid
  | raises
deriving DecidableEq, Repr

/-- Outcome of a lifecycle plugin hook (distributor_added / distributor_removed). -/
inductive HookResult
  | ok
  | raises
deriving DecidableEq, Repr

/-- Modelled from the spec: a PluginHandle of the Plugin Registry (section 6),
an external collaborator exposing validate_config, distributor_added and
distributor_removed together with its default configuration.  The hook
behaviour is a pure function of the repository view (its id) and the call
configuration. -/
structure Plugin where
  default_config : Config
  validate_config : String → CallConfiguration → ValidateResult
  distributor_added : String → CallConfiguration → HookResult
  distributor_removed : String → CallConfiguration → HookResult

/-- The Plugin Registry: maps a distributor type id to a plugin. -/
abbrev PluginRegistry := List (String × Plugin)

/-- Modelled from the spec: a persistent DistributorRecord (section 3 data
model) of the association store. -/
structure RepoDistributor where
  id : String
  repo_id : String
  distributor_type_id : String
  config : Config
  auto_publish : Bool
  scratchpad : Option String
  last_publish : Option Nat
deriving DecidableEq, Repr

/-- Modelled from the spec: the state visible to the lifecycle manager, the
set of existing repositories (the Repository Existence Oracle) and the
association store. -/
structure ManagerState where
  repos : List String
  store : List RepoDistributor
deriving DecidableEq, Repr

/-- A plugin hook invocation, recorded in order by the manager operations. -/
inductive Event
  | validate_config (repo_id : String) (cfg : CallConfiguration)
  | distributor_added (repo_id : String) (cfg : CallConfiguration)
  | distributor_removed (repo_id : String) (cfg : CallConfiguration)
deriving DecidableEq, Repr

/-- The error taxonomy of section 7. -/
inductive PulpError
  | MissingResource (resource_id : String)
  | InvalidType (type_id : String)
  | InvalidValue (value : String)
  | InvalidConfiguration
  | OperationFailed
deriving DecidableEq, Repr

/-- The user facing message of an error; used to state that an error
mentions the offending value. -/
def PulpError.message : PulpError → String
  | PulpError.MissingResource r => "Missing resource: " ++ r
  | PulpError.InvalidType t => "Invalid distributor type: " ++ t
  | PulpError.InvalidValue v => "Invalid value: " ++ v
  | PulpError.InvalidConfiguration => "The configuration was rejected by the plugin"
  | PulpError.OperationFailed => "A plugin lifecycle hook failed"

/-- Result of a manager operation: the returned value or error, the
successor state, and the plugin hook invocations performed, in order. -/
structure OpResult (α : Type) where
  result : Except PulpError α
  state : ManagerState
  events : List Event
deriving Repr

/-- Whether the repository exists (the Repository Existence Oracle). -/
def repoExists (st : ManagerState) (repo_id : String) : Bool :=
  st.repos.contains repo_id

/-- The store key predicate for (repo_id, dist_id). -/
def distributorKey (repo_id dist_id : String) (d : RepoDistributor) : Bool :=
  d.repo_id == repo_id && d.id == dist_id

/-- find_one of the association store. -/
def findDistributor (st : ManagerState) (repo_id dist_id : String) : Option RepoDistributor :=
  st.store.find? (distributorKey repo_id dist_id)

/-- delete of the association store: drop every record with the given key. -/
def removeRecord (store : List RepoDistributor) (repo_id dist_id : String) : List RepoDistributor :=
  store.filter (fun d => !(distributorKey repo_id dist_id d))

/-- Modelled from the spec: the allowed identifier grammar for distributor
ids, alphanumeric plus the dash, underscore and dot characters. -/
def isValidDistributorIdChar (c : Char) : Bool :=
  c.isAlphanum || c == '-' || c == '_' || c == '.'

/-- A distributor id is valid when non empty and made of allowed characters. -/
def isValidDistributorId (s : String) : Bool :=
  !s.isEmpty && s.data.all isValidDistributorIdChar

/-- Candidate generated distributor id: the type id with a numeric suffix. -/
def genCandidate (type_id : String) (n : Nat) : String :=
  type_id ++ "_" ++ toString n

/-- Modelled from the spec: generation of a distributor id when the caller
omits one, derived from the type id with a uniqueness preserving suffix. -/
def generateDistributorId (st : ManagerState) (repo_id type_id : String) : String :=
  match (List.range (st.store.length + 1)).find?
      (fun n => (findDistributor st repo_id (genCandidate type_id n)).isNone) with
  | Option.some n => genCandidate type_id n
  | Option.none => genCandidate type_id (st.store.length + 1)

/-- The call configuration built for a plugin invocation: the plugin default
configuration together with the caller supplied configuration. -/
def mkCallConfig (plugin : Plugin) (config : Config) : CallConfiguration :=
  { plugin_config := plugin.default_config, repo_plugin_config := config }

/-- The fresh DistributorRecord persisted by add_distributor. -/
def mkRecord (repo_id type_id : String) (config : Config) (auto_publish : Bool)
    (dist_id : String) : RepoDistributor :=
  { id := dist_id, repo_id := repo_id, distributor_type_id := type_id,
    config := config, auto_publish := auto_publish,
    scratchpad := Option.none, last_publish := Option.none }

/-- Modelled from the spec: steps 1 to 6 of add_distributor (section 4.1)
after the distributor id has been resolved.  Builds the call configuration,
invokes the removal hook for an existing record under the same key (its
outcome is swallowed), invokes validate_config (a False return or a raise
maps to InvalidConfiguration and nothing is persisted), persists the record,
then invokes distributor_added (a raise maps to OperationFailed but the
persisted record is kept). -/
def addResolved (st : ManagerState) (repo_id : String) (plugin : Plugin)
    (type_id : String) (config : Config) (auto_publish : Bool)
    (dist_id : String) : OpResult RepoDistributor :=
  let call_config : CallConfiguration := mkCallConfig plugin config
  let removal_events : List Event :=
    match findDistributor st repo_id dist_id with
    | Option.some old =>
        [Event.distributor_removed repo_id (mkCallConfig plugin old.config)]
    | Option.none => []
  let events := removal_events ++ [Event.validate_config repo_id call_config]
  match plugin.validate_config repo_id call_config with
  | ValidateResult.valid =>
      let record : RepoDistributor := mkRecord repo_id type_id config auto_publish dist_id
      let st2 : ManagerState :=
        { repos := st.repos, store := record :: removeRecord st.store repo_id dist_id }
      let events2 := events ++ [Event.distributor_added repo_id call_config]
      match plugin.distributor_added repo_id call_config with
      | HookResult.ok =>
          { result := Except.ok record, state := st2, events := events2 }
      | HookResult.raises =>
          { result := Except.error PulpError.OperationFailed, state := st2, events := events2 }
  | ValidateResult.invalid =>
      { result := Except.error PulpError.InvalidConfiguration, state := st, events := events }
  | ValidateResult.raises =>
      { result := Except.error PulpError.InvalidConfiguration, state := st, events := events }

/-- Modelled from the spec: add_distributor of the lifecycle manager
(section 4.1), whose implementation is absent from the source excerpt.
Preconditions in order: the repository must exist (else MissingResource),
the type must be registered (else InvalidType), a supplied distributor id
must match the allowed grammar (else InvalidValue); a missing id is
generated. -/
def add_distributor (registry : PluginRegistry) (st : ManagerState)
    (repo_id type_id : String) (config : Config) (auto_publish : Bool)
    (distributor_id : Option String) : OpResult RepoDistributor :=
  if !(repoExists st repo_id) then
    { result := Except.error (PulpError.MissingResource repo_id), state := st, events := [] }
  else
    match registry.lookup type_id with
    | Option.none =>
        { result := Except.error (PulpError.InvalidType type_id), state := st, events := [] }
    | Option.some plugin =>
        match distributor_id with
        | Option.some d =>
            if !(isValidDistributorId d) then
              { result := Except.error (PulpError.InvalidValue d), state := st, events := [] }
            else
              addResolved st repo_id plugin type_id config auto_publish d
        | Option.none =>
            addResolved st repo_id plugin type_id config auto_publish
              (generateDistributorId st repo_id type_id)

/-- Modelled from the spec: remove_distributor (section 4.1), absent from the
source excerpt.  MissingResource when the repository does not exist; a no-op
when the record does not exist; otherwise the removal hook is invoked (its
outcome swallowed) and the record deleted. -/
def remove_distributor (registry : PluginRegistry) (st : ManagerState)
    (repo_id dist_id : String) : OpResult Unit :=
  if !(repoExists st repo_id) then
    { result := Except.error (PulpError.MissingResource repo_id), state := st, events := [] }
  else
    match findDistributor st repo_id dist_id with
    | Option.none =>
        { result := Except.ok (), state := st, events := [] }
    | Option.some old =>
        let events : List Event :=
          match registry.lookup old.distributor_type_id with
          | Option.some plugin =>
              [Event.distributor_removed repo_id (mkCallConfig plugin old.config)]
          | Option.none => []
        { result := Except.ok (),
          state := { repos := st.repos, store := removeRecord st.store repo_id dist_id },
          events := events }

/-- Modelled from the spec: update_distributor_config (section 4.1), absent
from the source excerpt.  MissingResource when the repository or the record
is absent; validate_config is invoked on the new configuration exactly as in
add; only on success is the stored configuration overwritten. -/
def update_distributor_config (registry : PluginRegistry) (st : ManagerState)
    (repo_id dist_id : String) (new_config : Config) : OpResult RepoDistributor :=
  if !(repoExists st repo_id) then
    { result := Except.error (PulpError.MissingResource repo_id), state := st, events := [] }
  else
    match findDistributor st repo_id dist_id with
    | Option.none =>
        { result := Except.error (PulpError.MissingResource dist_id), state := st, events := [] }
    | Option.some dist =>
        match registry.lookup dist.distributor_type_id with
        | Option.none =>
            { result := Except.error (PulpError.InvalidType dist.distributor_type_id),
              state := st, events := [] }
        | Option.some plugin =>
            let call_config : CallConfiguration := mkCallConfig plugin new_config
            let events := [Event.validate_config repo_id call_config]
            match plugin.validate_config repo_id call_config with
            | ValidateResult.valid =>
                let record := { dist with config := new_config }
                { result := Except.ok record,
                  state := { repos := st.repos,
                             store := record :: removeRecord st.store repo_id dist_id },
                  events := events }
            | ValidateResult.invalid =>
                { result := Except.error PulpError.InvalidConfiguration, state := st, events := events }
            | ValidateResult.raises =>
                { result := Except.error PulpError.InvalidConfiguration, state := st, events := events }

/-- Modelled from the spec: get_distributor (section 4.1), absent from the
source excerpt.  MissingResource when the record is absent. -/
def get_distributor (st : ManagerState) (repo_id dist_id : String) :
    Except PulpError RepoDistributor :=
  match findDistributor st repo_id dist_id with
  | Option.none => Except.error (PulpError.MissingResource dist_id)
  | Option.some d => Except.ok d

/-- Modelled from the spec: get_distributors (section 4.1), absent from the
source excerpt.  MissingResource when the repository is absent; the empty
list when it has no distributors. -/
def get_distributors (st : ManagerState) (repo_id : String) :
    Except PulpError (List RepoDistributor) :=
  if !(repoExists st repo_id) then
    Except.error (PulpError.MissingResource repo_id)
  else
    Except.ok (st.store.filter (fun d => d.repo_id == repo_id))

/-- Modelled from the spec: get_distributor_scratchpad (section 4.1), absent
from the source excerpt.  Returns the stored scratchpad value, or the absent
value when the repository, the distributor or the scratchpad itself does not
exist; never raises. -/
def get_distributor_scratchpad (st : ManagerState) (repo_id dist_id : String) :
    Option String :=
  match findDistributor st repo_id dist_id with
  | Option.none => Option.none
  | Option.some d => d.scratchpad

/-- Modelled from the spec: set_distributor_scratchpad (section 4.1), absent
from the source excerpt.  Silently does nothing when the repository or the
distributor does not exist; otherwise stores the value. -/
def set_distributor_scratchpad (st : ManagerState) (repo_id dist_id : String)
    (value : Option String) : ManagerState :=
  match findDistributor st repo_id dist_id with
  | Option.none => st
  | Option.some d =>
      { repos := st.repos,
        store := { d with scratchpad := value } :: removeRecord st.store repo_id dist_id }

/-!
Task snapshot model, embedded from src/pulp/server/db/model/persistence.py
(class TaskSnapshot).  Python values stored in a serialized task are either
strings or non string values, modelled by PyValue; a snapshot is the
processed association list of its fields.
-/

/-- A Python value as seen by TaskSnapshot: a string, or one of the non
string values the snapshot stores unchanged (None, booleans, integers). -/
inductive PyValue
  | str (s : String)
  | int (n : Int)
  | bool (b : Bool)
  | none
deriving DecidableEq, Repr

/-- The characters stripped by the Python str.strip method. -/
def pyIsSpace (c : Char) : Bool :=
  c == ' ' || c == '\t' || c == '\n' || c == '\r' ||
    c == Char.ofNat 11 || c == Char.ofNat 12

/-- Python str.strip on a character list: drop leading and trailing
whitespace. -/
def pyStripList (l : List Char) : List Char :=
  ((l.dropWhile pyIsSpace).reverse.dropWhile pyIsSpace).reverse

/-- Python str.strip. -/
def pyStrip (s : String) : String :=
  String.mk (pyStripList s.data)

/-- Python unicode.encode with the ascii codec: succeeds exactly when every
character is in the ascii range, returning the string unchanged; raises
(returns no value) otherwise. -/
def asciiEncode (s : String) : Option String :=
  if s.data.all (fun c => c.toNat < 128) then Option.some s else Option.none

/-- The _process_value closure of TaskSnapshot._process_serialized_task:
non string values pass through; a string is ascii encoded then stripped. -/
def processValue : PyValue → Option PyValue
  | PyValue.str s => (asciiEncode s).map (fun t => PyValue.str (pyStrip t))
  | v => Option.some v

/-- TaskSnapshot._process_serialized_task: process every value of the
serialized task mapping in order; the whole construction raises (returns no
value) as soon as a string value fails ascii encoding. -/
def processSerializedTask : List (String × PyValue) → Option (List (String × PyValue))
  | [] => Option.some []
  | kv :: t =>
      match processValue kv.2, processSerializedTask t with
      | Option.some w, Option.some rest => Option.some ((kv.1, w) :: rest)
      | _, _ => Option.none

/-- TaskSnapshot.__init__: a missing (None) serialized task is replaced by
the empty mapping, then processed. -/
def taskSnapshot (serialized_task : Option (List (String × PyValue))) :
    Option (List (String × PyValue)) :=
  processSerializedTask (serialized_task.getD [])

/-- A snapshot is its processed field mapping. -/
abbrev Snapshot := List (String × PyValue)

/-- A task class as recovered by pickle.loads: an external collaborator
exposing the from_snapshot class method. -/
structure TaskClass (τ : Type) where
  from_snapshot : Snapshot → τ

/-- self.get(key, None) on a snapshot: the stored value, or None when the
key is absent. -/
def snapshotGet (snap : Snapshot) (key : String) : PyValue :=
  match snap.lookup key with
  | Option.some v => v
  | Option.none => PyValue.none

/-- TaskSnapshot.to_task: raise when the task_class entry is absent or
None; otherwise unpickle the stored class (pickle.loads is the external
collaborator loads, modelled total) and return from_snapshot applied to the
snapshot. -/
def to_task {τ : Type} (loads : PyValue → TaskClass τ) (snap : Snapshot) :
    Except Unit τ :=
  match snapshotGet snap "task_class" with
  | PyValue.none => Except.error ()
  | v => Except.ok ((loads v).from_snapshot snap)

/-!
Consumer register command, embedded from
builtins/extensions/consumer/pulp_consumer/pulp_cli.py
(RegisterCommand.register).  The observable behaviour is the ordered list of
effects the method performs (prompt rendering, the server register call, the
certificate write) together with its return value.
-/

/-- An observable effect of RegisterCommand.register. -/
inductive CliEffect
  | render_failure (msg : String)
  | render_success (msg : String)
  | server_register (id : String) (name : String)
      (description : Option String) (notes : Option (List (String × String)))
  | write_cert (path : String) (content : String)
deriving DecidableEq, Repr

/-- Return value of RegisterCommand.register: None, or the permissions
exception code. -/
inductive RegisterRet
  | none_ret
  | permissions_exception
deriving DecidableEq, Repr

/-- The environment RegisterCommand.register reads: the locally loaded
consumer id (load_consumer_id), the certificate directory configuration and
its writability, and the certificate the server returns on registration. -/
structure RegisterEnv where
  existing_consumer : Option String
  id_cert_dir : String
  id_cert_dir_writable : Bool
  id_cert_filename : String
  certificate : String

/-- The keyword arguments of RegisterCommand.register. -/
structure RegisterKwargs where
  consumer_id : String
  display_name_present : Bool
  display_name : String
  description : Option String
  note_present : Bool
  note : List String

/-- Python truthiness of the load_consumer_id result: None and the empty
string are falsy. -/
def truthyStr : Option String → Bool
  | Option.none => false
  | Option.some s => !s.isEmpty

/-- The failure message rendered when the system is already registered. -/
def alreadyRegisteredMsg : String :=
  "This system has already been registered as a consumer. Please use the unregister command to remove the consumer before attempting to re-register."

/-- The failure message rendered when the certificate directory is not
writable. -/
def writePermissionMsg (d : String) : String :=
  "Write permission is required for " ++ d ++ " to perform this operation."

/-- The success message rendered after registration. -/
def registerSuccessMsg (id : String) : String :=
  "Consumer [" ++ id ++ "] successfully registered"

/-- RegisterCommand.register, embedded from pulp_cli.py lines 92 to 133.
args_to_notes_dict is the external collaborator notesDict. -/
def register (env : RegisterEnv)
    (notesDict : List String → List (String × String))
    (kwargs : RegisterKwargs) : RegisterRet × List CliEffect :=
  let id := kwargs.consumer_id
  if truthyStr env.existing_consumer then
    (RegisterRet.none_ret, [CliEffect.render_failure alreadyRegisteredMsg])
  else
    let name := if kwargs.display_name_present then kwargs.display_name else id
    let notes : Option (List (String × String)) :=
      if kwargs.note_present && !kwargs.note.isEmpty then
        Option.some (notesDict kwargs.note)
      else
        Option.none
    if !env.id_cert_dir_writable then
      (RegisterRet.permissions_exception,
        [CliEffect.render_failure (writePermissionMsg env.id_cert_dir)])
    else
      let cert_filename := env.id_cert_dir ++ "/" ++ env.id_cert_filename
      (RegisterRet.none_ret,
        [CliEffect.server_register id name kwargs.description notes,
         CliEffect.write_cert cert_filename env.certificate,
         CliEffect.render_success (registerSuccessMsg id)])

/-- A message mentions a value when the value occurs verbatim inside it. -/
def mentionsValue (msg val : String) : Prop :=
  ∃ pre post, msg.data = pre ++ val.data ++ post

/-!
Concrete fixtures used by the witness theorems, mirroring the mock plugin
and repositories of the unit tests.
-/

/-- A well behaved plugin: validation succeeds and no hook raises. -/
def demoPlugin : Plugin :=
  { default_config := [("default_key", "default_val")]
  , validate_config := fun _ _ => ValidateResult.valid
  , distributor_added := fun _ _ => HookResult.ok
  , distributor_removed := fun _ _ => HookResult.ok }

/-- A plugin whose validate_config returns False. -/
def demoFalsePlugin : Plugin :=
  { demoPlugin with validate_config := fun _ _ => ValidateResult.invalid }

/-- A plugin whose distributor_added hook raises. -/
def demoRaisingPlugin : Plugin :=
  { demoPlugin with distributor_added := fun _ _ => HookResult.raises }

/-- A registry holding the well behaved mock distributor plugin. -/
def demoRegistry : PluginRegistry := [("mock-distributor", demoPlugin)]

/-- A registry whose mock plugin rejects every configuration. -/
def demoFalseRegistry : PluginRegistry := [("mock-distributor", demoFalsePlugin)]

/-- A registry whose mock plugin raises in distributor_added. -/
def demoRaisingRegistry : PluginRegistry := [("mock-distributor", demoRaisingPlugin)]

/-- A state with one empty repository and nothing in the store. -/
def demoEmptyState : ManagerState := { repos := ["empty"], store := [] }

/-- A state with the repository used by the add scenarios. -/
def demoRepoState : ManagerState := { repos := ["test_me"], store := [] }

/-- A distributor record already present in the store. -/
def demoRecord : RepoDistributor :=
  { id := "dist", repo_id := "repo", distributor_type_id := "mock-distributor",
    config := [("key", "orig")], auto_publish := true,
    scratchpad := Option.none, last_publish := Option.none }

/-- A state holding demoRecord on an existing repository. -/
def demoStateWithDist : ManagerState := { repos := ["repo"], store := [demoRecord] }

/-- A register environment where a consumer id is already loaded locally. -/
def demoRegisterEnv : RegisterEnv :=
  { existing_consumer := Option.some "consumer1",
    id_cert_dir := "/etc/pki/pulp/consumer",
    id_cert_dir_writable := true,
    id_cert_filename := "cert.pem",
    certificate := "CERT" }

/-- Keyword arguments for a register attempt. -/
def demoRegisterKwargs : RegisterKwargs :=
  { consumer_id := "c2", display_name_present := false, display_name := "",
    description := Option.none, note_present := false, note := [] }

/-!
Helper lemmas about the association store.
-/

lemma distributorKey_eq_true {R D : String} {d : RepoDistributor}
    (h1 : d.repo_id = R) (h2 : d.id = D) : distributorKey R D d = true := by
  simp [distributorKey, h1, h2]

lemma distributorKey_mkRecord (R T : String) (cfg : Config) (a : Bool) (D : String) :
    distributorKey R D (mkRecord R T cfg a D) = true := by
  simp [distributorKey, mkRecord]

lemma removeRecord_of_find_none {store : List RepoDistributor} {R D : String}
    (h : store.find? (distributorKey R D) = Option.none) :
    removeRecord store R D = store := by
  apply List.filter_eq_self.mpr
  intro d hd
  have hx := List.find?_eq_none.mp h d hd
  simp only [Bool.not_eq_true] at hx
  simp [hx]

lemma filterKey_of_find_none {store : List RepoDistributor} {R D : String}
    (h : store.find? (distributorKey R D) = Option.none) :
    store.filter (distributorKey R D) = [] := by
  apply List.filter_eq_nil_iff.mpr
  intro d hd
  exact List.find?_eq_none.mp h d hd

lemma find_removeRecord_none (store : List RepoDistributor) (R D : String) :
    (removeRecord store R D).find? (distributorKey R D) = Option.none := by
  apply List.find?_eq_none.mpr
  intro x hx
  have hmem := (List.mem_filter.mp hx).2
  simp only [Bool.not_eq_true'] at hmem
  simp [hmem]

lemma removeRecord_cons_key (store : List RepoDistributor) {R D : String}
    {d : RepoDistributor} (h : distributorKey R D d = true) :
    removeRecord (d :: store) R D = removeRecord store R D := by
  simp [removeRecord, h]

lemma mkRecord_config (R T : String) (cfg : Config) (a : Bool) (D : String) :
    (mkRecord R T cfg a D).config = cfg := rfl

/-- Claim C1: for every existing repository R and distributor id D, calling
remove_distributor when no record (R, D) exists returns success, leaves the
state unchanged and invokes no plugin hook: removal is idempotent and never
raises. -/
theorem remove_distributor_idempotent (registry : PluginRegistry)
    (st : ManagerState) (R D : String)
    (hrepo : repoExists st R = true)
    (hnone : findDistributor st R D = Option.none) :
    remove_distributor registry st R D =
      { result := Except.ok (), state := st, events := [] } := by
  simp [remove_distributor, hrepo, hnone]

/-- Witness for C1: removing the non existent distributor of the empty
repository is a successful no-op. -/
theorem remove_distributor_idempotent_witness :
    remove_distributor demoRegistry demoEmptyState "empty" "non-existent" =
      { result := Except.ok (), state := demoEmptyState, events := [] } :=
  remove_distributor_idempotent demoRegistry demoEmptyState "empty" "non-existent"
    (by decide) rfl

/-- Claim C7: scratchpad operations are soft.  The getter is a total
function (it never raises) returning the absent value whenever no record
(R, D) exists; the setter on a missing record leaves the state untouched;
and after setting the scratchpad of an existing record the getter returns
the stored value exactly. -/
theorem distributor_scratchpad_soft (st : ManagerState) (R D : String)
    (v : Option String) (d : RepoDistributor) :
    (findDistributor st R D = Option.none →
      get_distributor_scratchpad st R D = Option.none) ∧
    (findDistributor st R D = Option.none →
      set_distributor_scratchpad st R D v = st) ∧
    (findDistributor st R D = Option.some d →
      get_distributor_scratchpad (set_distributor_scratchpad st R D v) R D = v) := by
  refine ⟨fun h => ?_, fun h => ?_, fun h => ?_⟩
  · simp [get_distributor_scratchpad, h]
  · simp [set_distributor_scratchpad, h]
  · have hkey : distributorKey R D d = true := List.find?_some h
    have hkey2 : distributorKey R D { d with scratchpad := v } = true := by
      simpa [distributorKey] using hkey
    unfold set_distributor_scratchpad get_distributor_scratchpad
    rw [h]
    simp [findDistributor, List.find?_cons_of_pos _ hkey2]

/-- Witness for C7: the scratchpad of an untouched pair is absent, a set on
a missing distributor does nothing, and a set followed by a get on an
existing distributor returns the stored value exactly. -/
theorem distributor_scratchpad_soft_witness :
    get_distributor_scratchpad demoEmptyState "empty" "not_there" = Option.none ∧
    set_distributor_scratchpad demoEmptyState "empty" "fake_distributor"
      (Option.some "stuff") = demoEmptyState ∧
    get_distributor_scratchpad
      (set_distributor_scratchpad demoStateWithDist "repo" "dist"
        (Option.some "gnomish mines")) "repo" "dist" =
      Option.some "gnomish mines" :=
  ⟨(distributor_scratchpad_soft demoEmptyState "empty" "not_there"
      (Option.some "stuff") demoRecord).1 rfl,
   (distributor_scratchpad_soft demoEmptyState "empty" "fake_distributor"
      (Option.some "stuff") demoRecord).2.1 rfl,
   (distributor_scratchpad_soft demoStateWithDist "repo" "dist"
      (Option.some "gnomish mines") demoRecord).2.2 (by decide)⟩

/-- Claim C4: add-then-get round trip.  For every existing repository R,
registered type T, configuration, auto publish flag and valid distributor id
D, when the plugin accepts the configuration and its added hook succeeds,
add_distributor returns the persisted record and get_distributor afterwards
returns the same record: id D, repo_id R, distributor_type_id T, the
supplied configuration and the supplied auto publish flag. -/
theorem add_get_distributor_roundtrip (registry : PluginRegistry)
    (st : ManagerState) (R T : String) (cfg : Config) (a : Bool) (D : String)
    (plugin : Plugin)
    (hrepo : repoExists st R = true)
    (hlookup : registry.lookup T = Option.some plugin)
    (hD : isValidDistributorId D = true)
    (hvalid : plugin.validate_config R (mkCallConfig plugin cfg) = ValidateResult.valid)
    (hadded : plugin.distributor_added R (mkCallConfig plugin cfg) = HookResult.ok) :
    (add_distributor registry st R T cfg a (Option.some D)).result =
      Except.ok (mkRecord R T cfg a D) ∧
    get_distributor (add_distributor registry st R T cfg a (Option.some D)).state R D =
      Except.ok (mkRecord R T cfg a D) := by
  have hadd : add_distributor registry st R T cfg a (Option.some D) =
      addResolved st R plugin T cfg a D := by
    simp [add_distributor, hrepo, hlookup, hD]
  rw [hadd]
  simp only [addResolved, hvalid, hadded]
  refine ⟨by trivial, ?_⟩
  simp [get_distributor, findDistributor,
    List.find?_cons_of_pos _ (distributorKey_mkRecord R T cfg a D)]

/-- Witness for C4: the scenario of the spec, adding the mock distributor
under id my_dist to repository test_me and reading it back. -/
theorem add_get_distributor_roundtrip_witness :
    (add_distributor demoRegistry demoRepoState "test_me" "mock-distributor"
        [("foo", "bar")] true (Option.some "my_dist")).result =
      Except.ok (mkRecord "test_me" "mock-distributor" [("foo", "bar")] true "my_dist") ∧
    get_distributor
        (add_distributor demoRegistry demoRepoState "test_me" "mock-distributor"
          [("foo", "bar")] true (Option.some "my_dist")).state "test_me" "my_dist" =
      Except.ok (mkRecord "test_me" "mock-distributor" [("foo", "bar")] true "my_dist") :=
  add_get_distributor_roundtrip demoRegistry demoRepoState "test_me" "mock-distributor"
    [("foo", "bar")] true "my_dist" demoPlugin (by decide) rfl (by decide) rfl rfl

/-- Claim C6: an add_distributor call on an existing repository with a
registered type whose supplied distributor id contains a character outside
the allowed grammar (alphanumeric plus dash, underscore, dot) fails with
InvalidValue carrying the offending id, whose message mentions that id,
persists nothing (the state is unchanged) and invokes no plugin hook (the
event list is empty). -/
theorem add_distributor_invalid_id (registry : PluginRegistry)
    (st : ManagerState) (R T : String) (cfg : Config) (a : Bool) (D : String)
    (plugin : Plugin)
    (hrepo : repoExists st R = true)
    (hlookup : registry.lookup T = Option.some plugin)
    (hbad : ∃ c, c ∈ D.data ∧ isValidDistributorIdChar c = false) :
    add_distributor registry st R T cfg a (Option.some D) =
      { result := Except.error (PulpError.InvalidValue D), state := st, events := [] } ∧
    mentionsValue (PulpError.InvalidValue D).message D := by
  have hinvalid : isValidDistributorId D = false := by
    rcases hbad with ⟨c, hc, hfalse⟩
    have hall : D.data.all isValidDistributorIdChar = false := by
      apply List.all_eq_false.mpr
      exact ⟨c, hc, by simp [hfalse]⟩
    simp [isValidDistributorId, hall]
  refine ⟨by simp [add_distributor, hrepo, hlookup, hinvalid], ?_⟩
  exact ⟨("Invalid value: ").data, [], by simp [PulpError.message]⟩

/-- Witness for C6: the scenario of the spec, adding with the id made of
special characters fails with InvalidValue mentioning that id, with the
state unchanged and no hook invoked. -/
theorem add_distributor_invalid_id_witness :
    (add_distributor demoRegistry { repos := ["repo"], store := [] } "repo"
        "mock-distributor" [] true (Option.some "!@#$%^&*()") =
      { result := Except.error (PulpError.InvalidValue "!@#$%^&*()"),
        state := { repos := ["repo"], store := [] }, events := [] }) ∧
    mentionsValue (PulpError.InvalidValue "!@#$%^&*()").message "!@#$%^&*()" :=
  add_distributor_invalid_id demoRegistry { repos := ["repo"], store := [] } "repo"
    "mock-distributor" [] true "!@#$%^&*()" demoPlugin (by decide) rfl
    ⟨'!', by decide, by decide⟩

/-- Claim C3: update_distributor_config is all-or-nothing.  For an existing
repository and an existing distributor record, when the plugin returns False
or raises for the new configuration the call fails with
InvalidConfiguration and the state (hence the stored configuration) is
exactly the pre update one; when validation succeeds the stored
configuration is overwritten with the new configuration. -/
theorem update_distributor_config_all_or_nothing (registry : PluginRegistry)
    (st : ManagerState) (R D : String) (new_config : Config)
    (dist : RepoDistributor) (plugin : Plugin)
    (hrepo : repoExists st R = true)
    (hfind : findDistributor st R D = Option.some dist)
    (hlookup : registry.lookup dist.distributor_type_id = Option.some plugin) :
    (plugin.validate_config R (mkCallConfig plugin new_config) ≠ ValidateResult.valid →
      (update_distributor_config registry st R D new_config).result =
        Except.error PulpError.InvalidConfiguration ∧
      (update_distributor_config registry st R D new_config).state = st ∧
      findDistributor (update_distributor_config registry st R D new_config).state R D =
        Option.some dist) ∧
    (plugin.validate_config R (mkCallConfig plugin new_config) = ValidateResult.valid →
      (update_distributor_config registry st R D new_config).result =
        Except.ok { dist with config := new_config } ∧
      findDistributor (update_distributor_config registry st R D new_config).state R D =
        Option.some { dist with config := new_config }) := by
  have hkey : distributorKey R D dist = true := List.find?_some hfind
  have hkey2 : distributorKey R D { dist with config := new_config } = true := by
    simpa [distributorKey] using hkey
  constructor
  · intro hne
    rcases hv : plugin.validate_config R (mkCallConfig plugin new_config) with _ | _ | _
    · exact absurd hv hne
    · simp only [update_distributor_config, hrepo, hfind, hlookup, hv]
      exact ⟨rfl, rfl, hfind⟩
    · simp only [update_distributor_config, hrepo, hfind, hlookup, hv]
      exact ⟨rfl, rfl, hfind⟩
  · intro hv
    simp only [update_distributor_config, hrepo, hfind, hlookup, hv]
    refine ⟨rfl, ?_⟩
    simp [findDistributor, List.find?_cons_of_pos _ hkey2]

/-- Witness for C3: against the rejecting plugin the update on demoRecord
fails and the stored configuration is unchanged; against the accepting
plugin the stored configuration becomes the new one. -/
theorem update_distributor_config_all_or_nothing_witness :
    ((update_distributor_config demoFalseRegistry demoStateWithDist "repo" "dist"
        [("key", "updated")]).result = Except.error PulpError.InvalidConfiguration ∧
     (update_distributor_config demoFalseRegistry demoStateWithDist "repo" "dist"
        [("key", "updated")]).state = demoStateWithDist ∧
     findDistributor (update_distributor_config demoFalseRegistry demoStateWithDist
        "repo" "dist" [("key", "updated")]).state "repo" "dist" =
       Option.some demoRecord) ∧
    ((update_distributor_config demoRegistry demoStateWithDist "repo" "dist"
        [("key", "updated")]).result =
       Except.ok { demoRecord with config := [("key", "updated")] } ∧
     findDistributor (update_distributor_config demoRegistry demoStateWithDist
        "repo" "dist" [("key", "updated")]).state "repo" "dist" =
       Option.some { demoRecord with config := [("key", "updated")] }) :=
  ⟨(update_distributor_config_all_or_nothing demoFalseRegistry demoStateWithDist
      "repo" "dist" [("key", "updated")] demoRecord demoFalsePlugin
      (by decide) (by decide) rfl).1 (by decide),
   (update_distributor_config_all_or_nothing demoRegistry demoStateWithDist
      "repo" "dist" [("key", "updated")] demoRecord demoPlugin
      (by decide) (by decide) rfl).2 rfl⟩

/-- Claim C5: when the distributor_added hook raises after the record has
been persisted, add_distributor reports OperationFailed, yet the record is
in the store, get_distributor retrieves it, and remove_distributor
subsequently succeeds and deletes it. -/
theorem add_distributor_added_raises_keeps_record (registry : PluginRegistry)
    (st : ManagerState) (R T : String) (cfg : Config) (a : Bool) (D : String)
    (plugin : Plugin)
    (hrepo : repoExists st R = true)
    (hlookup : registry.lookup T = Option.some plugin)
    (hD : isValidDistributorId D = true)
    (hvalid : plugin.validate_config R (mkCallConfig plugin cfg) = ValidateResult.valid)
    (hraises : plugin.distributor_added R (mkCallConfig plugin cfg) = HookResult.raises) :
    (add_distributor registry st R T cfg a (Option.some D)).result =
      Except.error PulpError.OperationFailed ∧
    get_distributor (add_distributor registry st R T cfg a (Option.some D)).state R D =
      Except.ok (mkRecord R T cfg a D) ∧
    (remove_distributor registry
        (add_distributor registry st R T cfg a (Option.some D)).state R D).result =
      Except.ok () ∧
    findDistributor (remove_distributor registry
        (add_distributor registry st R T cfg a (Option.some D)).state R D).state R D =
      Option.none := by
  have hadd : add_distributor registry st R T cfg a (Option.some D) =
      addResolved st R plugin T cfg a D := by
    simp [add_distributor, hrepo, hlookup, hD]
  rw [hadd]
  simp only [addResolved, hvalid, hraises]
  have hkey := distributorKey_mkRecord R T cfg a D
  have hfind1 : findDistributor
      { repos := st.repos, store := mkRecord R T cfg a D :: removeRecord st.store R D } R D =
      Option.some (mkRecord R T cfg a D) := by
    simp [findDistributor, List.find?_cons_of_pos _ hkey]
  have hrepo2 : repoExists
      { repos := st.repos, store := mkRecord R T cfg a D :: removeRecord st.store R D } R = true := by
    simpa [repoExists] using hrepo
  refine ⟨by trivial, ?_, ?_, ?_⟩
  · simp [get_distributor, hfind1]
  · simp only [remove_distributor, hrepo2, hfind1]
    simp
  · simp only [remove_distributor, hrepo2, hfind1]
    simp only [Bool.not_true, Bool.false_eq_true, if_false]
    show List.find? (distributorKey R D)
      (removeRecord (mkRecord R T cfg a D :: removeRecord st.store R D) R D) = Option.none
    exact find_removeRecord_none _ R D

/-- Witness for C5: adding with the raising plugin reports OperationFailed
but the record is retrievable and then removable. -/
theorem add_distributor_added_raises_keeps_record_witness :
    (add_distributor demoRaisingRegistry demoRepoState "test_me" "mock-distributor"
        [("foo", "bar")] true (Option.some "my_dist")).result =
      Except.error PulpError.OperationFailed ∧
    get_distributor (add_distributor demoRaisingRegistry demoRepoState "test_me"
        "mock-distributor" [("foo", "bar")] true (Option.some "my_dist")).state
        "test_me" "my_dist" =
      Except.ok (mkRecord "test_me" "mock-distributor" [("foo", "bar")] true "my_dist") ∧
    (remove_distributor demoRaisingRegistry
        (add_distributor demoRaisingRegistry demoRepoState "test_me" "mock-distributor"
          [("foo", "bar")] true (Option.some "my_dist")).state "test_me" "my_dist").result =
      Except.ok () ∧
    findDistributor (remove_distributor demoRaisingRegistry
        (add_distributor demoRaisingRegistry demoRepoState "test_me" "mock-distributor"
          [("foo", "bar")] true (Option.some "my_dist")).state "test_me" "my_dist").state
        "test_me" "my_dist" =
      Option.none :=
  add_distributor_added_raises_keeps_record demoRaisingRegistry demoRepoState "test_me"
    "mock-distributor" [("foo", "bar")] true "my_dist" demoRaisingPlugin
    (by decide) rfl (by decide) rfl rfl

/-- Claim C2: adding twice under the same (R, D) replaces.  Starting from a
state with no record for (R, D), after a first successful add and a second
add of the same id with a new configuration and auto publish flag, exactly
one record exists for (R, D) and it carries the second configuration and
flag; the second add performed exactly the hook sequence removal hook for
the original record (carrying the first configuration), then validation,
then distributor_added; and each add performed exactly one distributor_added
invocation. -/
theorem add_distributor_replace_existing (registry : PluginRegistry)
    (st : ManagerState) (R T : String) (cfg1 cfg2 : Config) (a1 a2 : Bool)
    (D : String) (plugin : Plugin)
    (hrepo : repoExists st R = true)
    (hlookup : registry.lookup T = Option.some plugin)
    (hD : isValidDistributorId D = true)
    (hnone : findDistributor st R D = Option.none)
    (hv1 : plugin.validate_config R (mkCallConfig plugin cfg1) = ValidateResult.valid)
    (ha1 : plugin.distributor_added R (mkCallConfig plugin cfg1) = HookResult.ok)
    (hv2 : plugin.validate_config R (mkCallConfig plugin cfg2) = ValidateResult.valid)
    (ha2 : plugin.distributor_added R (mkCallConfig plugin cfg2) = HookResult.ok) :
    (add_distributor registry st R T cfg1 a1 (Option.some D)).events =
      [Event.validate_config R (mkCallConfig plugin cfg1),
       Event.distributor_added R (mkCallConfig plugin cfg1)] ∧
    (add_distributor registry
        (add_distributor registry st R T cfg1 a1 (Option.some D)).state
        R T cfg2 a2 (Option.some D)).events =
      [Event.distributor_removed R (mkCallConfig plugin cfg1),
       Event.validate_config R (mkCallConfig plugin cfg2),
       Event.distributor_added R (mkCallConfig plugin cfg2)] ∧
    (add_distributor registry
        (add_distributor registry st R T cfg1 a1 (Option.some D)).state
        R T cfg2 a2 (Option.some D)).result =
      Except.ok (mkRecord R T cfg2 a2 D) ∧
    (add_distributor registry
        (add_distributor registry st R T cfg1 a1 (Option.some D)).state
        R T cfg2 a2 (Option.some D)).state.store.filter (distributorKey R D) =
      [mkRecord R T cfg2 a2 D] := by
  have hkey1 := distributorKey_mkRecord R T cfg1 a1 D
  have hstore : removeRecord st.store R D = st.store := removeRecord_of_find_none hnone
  have hadd1 : add_distributor registry st R T cfg1 a1 (Option.some D) =
      { result := Except.ok (mkRecord R T cfg1 a1 D),
        state := { repos := st.repos, store := mkRecord R T cfg1 a1 D :: st.store },
        events := [Event.validate_config R (mkCallConfig plugin cfg1),
                   Event.distributor_added R (mkCallConfig plugin cfg1)] } := by
    simp [add_distributor, hrepo, hlookup, hD, addResolved, hnone, hv1, ha1, hstore]
  have hrepo1 : repoExists
      { repos := st.repos, store := mkRecord R T cfg1 a1 D :: st.store } R = true := by
    simpa [repoExists] using hrepo
  have hfind1 : findDistributor
      { repos := st.repos, store := mkRecord R T cfg1 a1 D :: st.store } R D =
      Option.some (mkRecord R T cfg1 a1 D) := by
    simp [findDistributor, List.find?_cons_of_pos _ hkey1]
  have hremove1 : removeRecord (mkRecord R T cfg1 a1 D :: st.store) R D = st.store := by
    rw [removeRecord_cons_key st.store hkey1, hstore]
  have hadd2 : add_distributor registry
      { repos := st.repos, store := mkRecord R T cfg1 a1 D :: st.store }
      R T cfg2 a2 (Option.some D) =
      { result := Except.ok (mkRecord R T cfg2 a2 D),
        state := { repos := st.repos, store := mkRecord R T cfg2 a2 D :: st.store },
        events := [Event.distributor_removed R (mkCallConfig plugin cfg1),
                   Event.validate_config R (mkCallConfig plugin cfg2),
                   Event.distributor_added R (mkCallConfig plugin cfg2)] } := by
    simp [add_distributor, hrepo1, hlookup, hD, addResolved, hfind1, hv2, ha2,
      mkRecord_config, hremove1]
  rw [hadd1, hadd2]
  refine ⟨rfl, rfl, rfl, ?_⟩
  show List.filter (distributorKey R D) (mkRecord R T cfg2 a2 D :: st.store) =
    [mkRecord R T cfg2 a2 D]
  rw [List.filter_cons_of_pos (distributorKey_mkRecord R T cfg2 a2 D),
    filterKey_of_find_none hnone]

/-- Witness for C2: the replace scenario of the test, first add with one
configuration then a second add under the same id with a new configuration
and flag. -/
theorem add_distributor_replace_existing_witness :
    (add_distributor demoRegistry demoRepoState "test_me" "mock-distributor"
        [] true (Option.some "dist_1")).events =
      [Event.validate_config "test_me" (mkCallConfig demoPlugin []),
       Event.distributor_added "test_me" (mkCallConfig demoPlugin [])] ∧
    (add_distributor demoRegistry
        (add_distributor demoRegistry demoRepoState "test_me" "mock-distributor"
          [] true (Option.some "dist_1")).state
        "test_me" "mock-distributor" [("foo", "bar")] false (Option.some "dist_1")).events =
      [Event.distributor_removed "test_me" (mkCallConfig demoPlugin []),
       Event.validate_config "test_me" (mkCallConfig demoPlugin [("foo", "bar")]),
       Event.distributor_added "test_me" (mkCallConfig demoPlugin [("foo", "bar")])] ∧
    (add_distributor demoRegistry
        (add_distributor demoRegistry demoRepoState "test_me" "mock-distributor"
          [] true (Option.some "dist_1")).state
        "test_me" "mock-distributor" [("foo", "bar")] false (Option.some "dist_1")).result =
      Except.ok (mkRecord "test_me" "mock-distributor" [("foo", "bar")] false "dist_1") ∧
    (add_distributor demoRegistry
        (add_distributor demoRegistry demoRepoState "test_me" "mock-distributor"
          [] true (Option.some "dist_1")).state
        "test_me" "mock-distributor" [("foo", "bar")] false (Option.some "dist_1")).state.store.filter
        (distributorKey "test_me" "dist_1") =
      [mkRecord "test_me" "mock-distributor" [("foo", "bar")] false "dist_1"] :=
  add_distributor_replace_existing demoRegistry demoRepoState "test_me" "mock-distributor"
    [] [("foo", "bar")] true false "dist_1" demoPlugin
    (by decide) rfl (by decide) rfl rfl rfl rfl rfl

lemma processSerializedTask_mem {m snap : List (String × PyValue)}
    (h : processSerializedTask m = Option.some snap) {k : String} {v : PyValue}
    (hmem : (k, v) ∈ m) :
    ∃ w, processValue v = Option.some w ∧ (k, w) ∈ snap := by
  induction m generalizing snap with
  | nil => cases hmem
  | cons kv t ih =>
    rw [processSerializedTask] at h
    rcases hf : processValue kv.2 with _ | w0 <;> rw [hf] at h
    · cases h
    · rcases ht : processSerializedTask t with _ | rest <;> rw [ht] at h
      · cases h
      · cases h
        rcases List.mem_cons.mp hmem with heq | htail
        · subst heq
          exact ⟨w0, hf, List.mem_cons_self _ _⟩
        · obtain ⟨w, hw1, hw2⟩ := ih ht htail
          exact ⟨w, hw1, List.mem_cons_of_mem _ hw2⟩

/-- Claim C8: TaskSnapshot construction normalizes its input.  Constructing
with no serialized task yields an empty snapshot; and whenever construction
of a snapshot from a mapping succeeds, every non string value appears in the
snapshot unchanged under its key, while every string value appears ascii
encoded (hence it was pure ascii) and stripped of surrounding whitespace. -/
theorem taskSnapshot_normalizes (m snap : List (String × PyValue))
    (k : String) (v : PyValue)
    (hsnap : taskSnapshot (Option.some m) = Option.some snap)
    (hmem : (k, v) ∈ m) :
    taskSnapshot Option.none = Option.some [] ∧
    ((∀ s, v ≠ PyValue.str s) → (k, v) ∈ snap) ∧
    (∀ s, v = PyValue.str s →
      s.data.all (fun c => c.toNat < 128) = true ∧
      (k, PyValue.str (pyStrip s)) ∈ snap) := by
  have hm : processSerializedTask m = Option.some snap := hsnap
  obtain ⟨w, hw, hwmem⟩ := processSerializedTask_mem hm hmem
  refine ⟨rfl, fun hns => ?_, fun s hs => ?_⟩
  · have hv : processValue v = Option.some v := by
      cases v with
      | str s => exact absurd rfl (hns s)
      | int n => rfl
      | bool b => rfl
      | none => rfl
    rw [hv] at hw
    cases hw
    exact hwmem
  · subst hs
    simp only [processValue, asciiEncode] at hw
    cases hall : s.data.all (fun c => decide (c.toNat < 128)) with
    | false =>
        rw [hall] at hw
        simp at hw
    | true =>
        rw [hall] at hw
        simp at hw
        rw [← hw] at hwmem
        exact ⟨rfl, hwmem⟩

/-- Witness for C8: a mapping with one padded ascii string field and one
integer field is normalized; the empty construction yields the empty
snapshot. -/
theorem taskSnapshot_normalizes_witness :
    taskSnapshot Option.none = Option.some [] ∧
    ("n", PyValue.int 5) ∈
      ([("id", PyValue.str "task-1"), ("n", PyValue.int 5)] : List (String × PyValue)) ∧
    (" task-1 ").data.all (fun c => c.toNat < 128) = true ∧
    ("id", PyValue.str (pyStrip " task-1 ")) ∈
      ([("id", PyValue.str "task-1"), ("n", PyValue.int 5)] : List (String × PyValue)) :=
  have h1 := taskSnapshot_normalizes
    [("id", PyValue.str " task-1 "), ("n", PyValue.int 5)]
    [("id", PyValue.str "task-1"), ("n", PyValue.int 5)]
    "n" (PyValue.int 5) (by decide) (by decide)
  have h2 := taskSnapshot_normalizes
    [("id", PyValue.str " task-1 "), ("n", PyValue.int 5)]
    [("id", PyValue.str "task-1"), ("n", PyValue.int 5)]
    "id" (PyValue.str " task-1 ") (by decide) (by decide)
  have h3 := h2.2.2 " task-1 " rfl
  ⟨h1.1, h1.2.1 (fun s h => PyValue.noConfusion h), h3.1, h3.2⟩

/-- Claim C9: to_task raises exactly when the snapshot has no task_class
entry or that entry is None; when a value is present the unpickled class and
its from_snapshot applied to the snapshot are returned. -/
theorem to_task_raises_iff (τ : Type) (loads : PyValue → TaskClass τ)
    (snap : Snapshot) :
    (to_task loads snap = Except.error () ↔
      snapshotGet snap "task_class" = PyValue.none) ∧
    (snapshotGet snap "task_class" ≠ PyValue.none →
      to_task loads snap =
        Except.ok ((loads (snapshotGet snap "task_class")).from_snapshot snap)) := by
  rcases hv : snapshotGet snap "task_class" with s | n | b | _ <;>
    simp [to_task, hv]

/-- Witness for C9: a snapshot with a stored task class yields the loaded
class applied to the snapshot; the empty snapshot raises. -/
theorem to_task_raises_iff_witness :
    to_task (fun _ => TaskClass.mk (fun _ => (7 : Nat)))
      [("task_class", PyValue.str "cls")] = Except.ok 7 ∧
    to_task (fun _ => TaskClass.mk (fun _ => (7 : Nat))) ([] : Snapshot) =
      Except.error () :=
  ⟨(to_task_raises_iff Nat (fun _ => TaskClass.mk (fun _ => (7 : Nat)))
      [("task_class", PyValue.str "cls")]).2 (by decide),
   (to_task_raises_iff Nat (fun _ => TaskClass.mk (fun _ => (7 : Nat)))
      ([] : Snapshot)).1.mpr rfl⟩

/-- Claim C10: RegisterCommand.register refuses re-registration atomically.
Whenever a consumer id is already loaded locally (a truthy
load_consumer_id), the command renders exactly the failure message and
returns None, performing no server register call and writing no certificate
file. -/
theorem register_refuses_reregistration (env : RegisterEnv)
    (notesDict : List String → List (String × String)) (kwargs : RegisterKwargs)
    (h : truthyStr env.existing_consumer = true) :
    register env notesDict kwargs =
      (RegisterRet.none_ret, [CliEffect.render_failure alreadyRegisteredMsg]) ∧
    ∀ e ∈ (register env notesDict kwargs).2,
      (∀ i n d nt, e ≠ CliEffect.server_register i n d nt) ∧
      (∀ p c, e ≠ CliEffect.write_cert p c) := by
  have hreg : register env notesDict kwargs =
      (RegisterRet.none_ret, [CliEffect.render_failure alreadyRegisteredMsg]) := by
    simp [register, h]
  refine ⟨hreg, ?_⟩
  rw [hreg]
  intro e he
  have he2 : e = CliEffect.render_failure alreadyRegisteredMsg := by
    simpa using he
  subst he2
  exact ⟨fun i n d nt hc => CliEffect.noConfusion hc,
    fun p c hc => CliEffect.noConfusion hc⟩

/-- Witness for C10: with a loaded consumer id the register command only
renders the already registered failure message. -/
theorem register_refuses_reregistration_witness :
    register demoRegisterEnv (fun _ => []) demoRegisterKwargs =
      (RegisterRet.none_ret, [CliEffect.render_failure alreadyRegisteredMsg]) :=
  (register_refuses_reregistration demoRegisterEnv (fun _ => []) demoRegisterKwargs
    (by decide)).1

end Pulp
